import Mathlib

/-!
Shallow embedding of the radar-chart / normalization core of the
WSA_Case_Study_Dashboard repository.

Python floats are modelled as `PyFloat` (`nan` or a rational); cells of the
pandas tables as `PyVal` (string, float, NaN, None).  Python exceptions that
the source lets escape are modelled with `Except PyErr`; exceptions the
source catches are resolved inside the definitions, exactly where the
corresponding `try/except` sits in the source.  Binary-float rounding is
idealised away: numeric literals of the source (6.5, 1.1, ...) are read as
the rationals they denote.
-/

namespace WSA

/-- A Python float: either NaN or a finite value (modelled as a rational). -/
inductive PyFloat where
  | nan : PyFloat
  | fin : ℚ → PyFloat
  deriving DecidableEq, Repr

/-- A raw cell of a pandas table: a string, a float, NaN, or None. -/
inductive PyVal where
  | vstr : String → PyVal
  | vnum : ℚ → PyVal
  | vnan : PyVal
  | vnone : PyVal
  deriving DecidableEq, Repr

/-- Python exceptions that escape the modelled code. -/
inductive PyErr where
  | valueError : PyErr
  | typeError : PyErr
  | zeroDivision : PyErr
  deriving DecidableEq, Repr

/-- Model of `pd.isna` on a float. -/
def PyFloat.isna : PyFloat → Bool
  | .nan => true
  | .fin _ => false

/-- The finite value of a non-NaN float (0 on NaN; only used under a
non-NaN guard, mirroring code that runs after a `pd.isna` check). -/
def PyFloat.toQ : PyFloat → ℚ
  | .nan => 0
  | .fin q => q

/-- Model of `pd.isna` on a raw cell (True for NaN and None). -/
def pdIsna : PyVal → Bool
  | .vnan => true
  | .vnone => true
  | _ => false

/-- Digits of a decimal string, consumed greedily. -/
def takeDigits : List Char → List ℕ × List Char
  | [] => ([], [])
  | c :: cs =>
    if c.isDigit then
      let (ds, rest) := takeDigits cs
      ((c.toNat - 48) :: ds, rest)
    else ([], c :: cs)

/-- Value of a digit list read most-significant first. -/
def natOfDigits (ds : List ℕ) : ℕ := ds.foldl (fun a d => 10 * a + d) 0

/-- Unsigned decimal literal: digits, with an optional dot and fractional
digits (`"12"`, `"12."`, `".5"`, `"12.5"`). -/
def parseUnsigned (cs : List Char) : Option ℚ :=
  let (ipart, rest) := takeDigits cs
  match rest with
  | [] => if ipart.isEmpty then none else some (natOfDigits ipart)
  | c :: rest2 =>
    if c = '.' then
      let (fpart, rest3) := takeDigits rest2
      if rest3.isEmpty && !(ipart.isEmpty && fpart.isEmpty) then
        some ((natOfDigits ipart : ℚ) + (natOfDigits fpart : ℚ) / (10 ^ fpart.length))
      else none
    else none

/-- Model of Python `float(str)`: surrounding whitespace stripped, optional
sign, plain decimal literal.  (Exponents and `inf`/`nan` literals do not
occur in this repository's data handling and are not modelled.) -/
def pyParseFloat (s : String) : Option ℚ :=
  match (s.data.dropWhile Char.isWhitespace).reverse.dropWhile Char.isWhitespace |>.reverse with
  | '-' :: cs => (parseUnsigned cs).map Neg.neg
  | '+' :: cs => parseUnsigned cs
  | cs => parseUnsigned cs

/-- Python `str.strip(c)` for a single strip character: remove every
occurrence of `c` from both ends. -/
def pyStripChar (s : String) (c : Char) : String :=
  ⟨((s.data.dropWhile (· = c)).reverse.dropWhile (· = c)).reverse⟩

/-- Python `str.replace(c, '')` for a one-character pattern. -/
def pyRemoveChar (s : String) (c : Char) : String :=
  ⟨s.data.filter (· ≠ c)⟩

/-- Helper for `pySplitWs`: first argument is the remaining input, second
the current token accumulated in reverse. -/
def splitWsChars : List Char → List Char → List String
  | [], acc => if acc.isEmpty then [] else [⟨acc.reverse⟩]
  | c :: cs, acc =>
    if c.isWhitespace then
      if acc.isEmpty then splitWsChars cs []
      else ⟨acc.reverse⟩ :: splitWsChars cs []
    else splitWsChars cs (c :: acc)

/-- Python `str.split()` (split on whitespace runs, dropping empties). -/
def pySplitWs (s : String) : List String :=
  splitWsChars s.data []

/-- Python `str.isdigit` (ASCII digits; nonempty and all digits). -/
def pyIsDigit (s : String) : Bool :=
  !s.data.isEmpty && s.data.all Char.isDigit

/-- Python `str.startswith` for a one-character pattern. -/
def pyStartsWith (s : String) (c : Char) : Bool :=
  match s.data with
  | [] => false
  | d :: _ => d = c

/-- Python `str.endswith pat`. -/
def pyEndsWith (s pat : String) : Bool :=
  pat.data.reverse.isPrefixOf s.data.reverse

/-- Python `pat in s` (substring containment). -/
def pyContains (s pat : String) : Bool :=
  decide (2 ≤ (s.splitOn pat).length)

/-- ASCII `str.upper`. -/
def pyUpper (s : String) : String :=
  ⟨s.data.map (fun c => if 'a' ≤ c ∧ c ≤ 'z' then Char.ofNat (c.toNat - 32) else c)⟩

/-- Python `str.strip()` (strip surrounding whitespace). -/
def pyStrip (s : String) : String :=
  ⟨((s.data.dropWhile Char.isWhitespace).reverse.dropWhile Char.isWhitespace).reverse⟩

/-- Python `str(x)` on a cell, to the extent the missing-value check needs
it (a numeric cell never prints as blank). -/
def pyStr : PyVal → String
  | .vstr s => s
  | .vnum q => toString q
  | .vnan => "nan"
  | .vnone => "None"

/-- Python `float(x)` on a raw cell: floats pass through (NaN included),
strings are parsed (`ValueError` on failure), `None` is a `TypeError`. -/
def pyFloatOf : PyVal → Except PyErr PyFloat
  | .vnum q => .ok (.fin q)
  | .vnan => .ok .nan
  | .vnone => .error .typeError
  | .vstr s =>
    match pyParseFloat s with
    | some q => .ok (.fin q)
    | none => .error .valueError

namespace Charts

/-!  Embedding of `src/utils/charts.py` (current iteration).  -/

/-- From `src/utils/charts.py`: `normalize_parameter`.  The `pd.isna` guard is
first; the `except (TypeError, ValueError)` clause of the source cannot
fire on float arguments, while a `ZeroDivisionError` is NOT caught there
and escapes, modelled as `.error .zeroDivision`. -/
def normalize_parameter (value : PyFloat) (param_name : String)
    (param_min param_max : PyFloat) (param_type : String := "standard") :
    Except PyErr ℚ :=
  if value.isna || param_min.isna || param_max.isna then .ok 0
  else
    let v := value.toQ
    let mn := param_min.toQ
    let mx := param_max.toQ
    if param_type = "ph_difference" then
      let neutral_ph : ℚ := 7
      let max_possible_diff := max |mx - neutral_ph| |mn - neutral_ph|
      let actual_diff := |v - neutral_ph|
      if max_possible_diff = 0 then .error .zeroDivision
      else .ok (min (actual_diff / max_possible_diff) 1)
    else if param_type = "centered" then
      let mid_point := (mx + mn) / 2
      let max_distance := max (mx - mid_point) (mid_point - mn)
      if max_distance = 0 then .error .zeroDivision
      else .ok (max 0 (min 1 (|v - mid_point| / max_distance)))
    else
      if mx = mn then .ok (if mx ≤ v then 0 else 1)
      else .ok (max 0 (min 1 ((v - mn) / (mx - mn))))

/-- From `src/utils/charts.py`, `create_radar_chart` lines 71–77 and 99: the
`param_types` dict maps the literal key `pH` to `ph_difference`, every
other parameter to `standard`, and lookup defaults to `standard`. -/
def param_policy (param : String) : String :=
  if param = "pH" then ("ph_difference") else ("standard")

end Charts

namespace DataLoader

/-- From `src/utils/data-loader.py`: `process_data`.  The branch chain is
ordered exactly as in the source; every exception is swallowed by the
outer `except Exception` and turned into `0`. -/
def process_data (value : PyVal) : PyFloat :=
  match value with
  | .vstr s =>
    if pyStartsWith s '<' then
      match pyParseFloat (pyStripChar s '<') with
      | some q => .fin q
      | none => .fin 0
    else if pyStartsWith s '>' then
      let s2 := pyStripChar s '>'
      if pyIsDigit s2 then
        match pyParseFloat s2 with
        | some q => .fin q
        | none => .fin 0
      else .fin 2000
    else if s = "N/R" then .fin 0
    else if pyEndsWith s ("LINT") then
      match pySplitWs s with
      | [] => .fin 0
      | t :: _ =>
        match pyParseFloat (pyStripChar t '<') with
        | some q => .fin q
        | none => .fin 0
    else
      match pyParseFloat s with
      | some q => .fin q
      | none => .fin 0
  | .vnone => .fin 0
  | .vnan => .nan
  | .vnum q => .fin q

end DataLoader

namespace ChartsCopy2

/-!  Embedding of `src/utils/old/charts - Copy2.py`.  -/

/-- String preprocessing of `normalize_parameter` in Copy2 (lines 10–21):
turn the raw cell into a float, `N/R` short-circuiting to the result `0`,
parse failures raising `ValueError` (caught by the enclosing `except`,
hence resolved to `0` by the caller below), `None` coerced to `0`. -/
def coerceValue : PyVal → Option PyFloat
  | .vstr s =>
    if pyStartsWith s '<' then
      (pyParseFloat (pyRemoveChar s '<')).map .fin
    else if s = "N/R" then some (.fin 0)
    else if pyContains s ("LINT") then
      match pySplitWs s with
      | [] => none
      | t :: _ => (pyParseFloat (pyRemoveChar t '<')).map .fin
    else (pyParseFloat s).map .fin
  | .vnone => some (.fin 0)
  | .vnan => some .nan
  | .vnum q => some (.fin q)

/-- From `src/utils/old/charts - Copy2.py`: `normalize_parameter`.  Total: the
source catches `ValueError`/`TypeError` and both division sites are
guarded with an explicit `!= 0` / `== 0` test.  A NaN value flows through
the arithmetic and yields NaN, except where a guard returns `0` first. -/
def normalize_parameter (value : PyVal) (param : String)
    (min_val max_val : ℚ) : PyFloat :=
  match coerceValue value with
  | none => .fin 0
  | some f =>
    if pyUpper param = "PH" then
      let max_deviation := max |max_val - 7| |min_val - 7|
      if max_deviation ≠ 0 then
        match f with
        | .nan => .nan
        | .fin q => .fin (|q - 7| / max_deviation)
      else .fin 0
    else
      let value_range := max_val - min_val
      if value_range = 0 then .fin 0
      else
        match f with
        | .nan => .nan
        | .fin q => .fin ((q - min_val) / value_range)

/-- Per-cell step of `get_dynamic_range` (lines 45–59): skip NaN/None and
`N/R`, parse strings (`ValueError` → skip), keep only values `> 0`. -/
def dynValue : PyVal → Option ℚ
  | .vnan => none
  | .vnone => none
  | .vstr s =>
    if s = "N/R" then none
    else
      let parsed :=
        if pyStartsWith s '<' then pyParseFloat (pyRemoveChar s '<')
        else if pyContains s ("LINT") then
          match pySplitWs s with
          | [] => none
          | t :: _ => pyParseFloat (pyRemoveChar t '<')
        else pyParseFloat s
      match parsed with
      | some q => if 0 < q then some q else none
      | none => none
  | .vnum q => if 0 < q then some q else none

/-- Python `max` over a nonempty list, as a fold. -/
def pyListMax (v : ℚ) (vs : List ℚ) : ℚ := vs.foldl max v

/-- From `src/utils/old/charts - Copy2.py`: `get_dynamic_range`, over the
parameter's row of week-column cells: collect parseable positive values;
if any, return `(0, max * 1.1)`, else the `(0, 1)` fallback. -/
def get_dynamic_range (cells : List PyVal) : ℚ × ℚ :=
  match cells.filterMap dynValue with
  | [] => (0, 1)
  | v :: vs => (0, pyListMax v vs * (11 / 10))

end ChartsCopy2

namespace ChartsCopy

/-!  Embedding of `src/utils/old/charts - Copy.py`, `create_radar_chart` lines 73–94:
the missing-value scan and the warning string.  -/

/-- Line 81: a cell is missing when `pd.isna(value)`, or it equals the
string `N/R`, or `str(value).strip()` is empty. -/
def isMissing (value : PyVal) : Bool :=
  pdIsna value || value = .vstr ("N/R") || pyStrip (pyStr value) = ""

/-- Lines 74–83: the parameters of the filtered rows whose cell for the
selected week is missing, in row order. -/
def missing_params (rows : List (String × PyVal)) : List String :=
  (rows.filter (fun r => isMissing r.2)).map Prod.fst

/-- Line 94: the warning text for a missing-parameter list. -/
def mkWarning (week_num : ℕ) (ps : List String) : String :=
  "Warning: Missing values for Week (" ++ toString week_num ++
    ") in parameters: " ++ String.intercalate (", ") ps

/-- Lines 92–94: `None` when nothing is missing, otherwise the warning
string over the missing parameters. -/
def warning_message (week_num : ℕ) (rows : List (String × PyVal)) :
    Option String :=
  match missing_params rows with
  | [] => none
  | ps => some (mkWarning week_num ps)

end ChartsCopy

namespace Charts

/-!  Embedding of `src/utils/charts.py`, `create_radar_chart`: the primary series loop
(lines 86–119) and the comparison series loop (lines 153–201).  A ranges
table is a list of `(parameter, Min, Max)` rows; `rows` pairs each selected
parameter with its cell for the selected week, in dataframe order.  -/

/-- Row lookup `ranges_df[ranges_df[...] == param]` followed by
`.values[0]`: the first matching row's bounds, if any. -/
def lookupRange (ranges : List (String × ℚ × ℚ)) (p : String) :
    Option (ℚ × ℚ) :=
  (ranges.find? (fun r => r.1 = p)).map Prod.snd

/-- Body of both per-parameter loops: `actual_val = float(value)` then
`normalize_parameter`; `TypeError`/`ValueError` from the conversion is
caught and appends `0`, a `ZeroDivisionError` from the normalizer is not
caught and aborts the whole build. -/
def pointOf (p : String) (v : PyVal) (mn mx : ℚ) : Except PyErr ℚ :=
  match pyFloatOf v with
  | .error _ => .ok 0
  | .ok f => normalize_parameter f p (.fin mn) (.fin mx) (param_policy p)

/-- Primary loop (lines 86–119): one radial value per selected parameter;
bounds come from the ranges table when present, otherwise from the
observed-data fallback `fb` (lines 92–95). -/
def primary_r (rows : List (String × PyVal)) (ranges : List (String × ℚ × ℚ))
    (fb : String → ℚ × ℚ) : Except PyErr (List ℚ) :=
  match rows with
  | [] => .ok []
  | (p, v) :: rest =>
    let b := (lookupRange ranges p).getD (fb p)
    match pointOf p v b.1 b.2 with
    | .error e => .error e
    | .ok q =>
      match primary_r rest ranges fb with
      | .error e => .error e
      | .ok qs => .ok (q :: qs)

/-- Comparison loop (lines 160–185): a parameter with no row in the
comparison ranges table is skipped by `continue` (line 166) and
contributes no point. -/
def comparison_r (rows : List (String × PyVal))
    (tranges : List (String × ℚ × ℚ)) : Except PyErr (List ℚ) :=
  match rows with
  | [] => .ok []
  | (p, v) :: rest =>
    match lookupRange tranges p with
    | none => comparison_r rest tranges
    | some b =>
      match pointOf p v b.1 b.2 with
      | .error e => .error e
      | .ok q =>
        match comparison_r rest tranges with
        | .error e => .error e
        | .ok qs => .ok (q :: qs)

/-- One `Scatterpolar` trace: angular labels and radial values. -/
structure Trace where
  theta : List String
  r : List ℚ
  deriving DecidableEq, Repr

/-- The main trace (lines 136–150): `theta` is the full parameter list. -/
def primary_trace (rows : List (String × PyVal))
    (ranges : List (String × ℚ × ℚ)) (fb : String → ℚ × ℚ) :
    Except PyErr Trace :=
  (primary_r rows ranges fb).map (fun l => ⟨rows.map Prod.fst, l⟩)

/-- The comparison trace (lines 187–201): `theta` is again the full
parameter list, while `r` holds only the non-skipped points. -/
def comparison_trace (rows : List (String × PyVal))
    (tranges : List (String × ℚ × ℚ)) : Except PyErr Trace :=
  (comparison_r rows tranges).map (fun l => ⟨rows.map Prod.fst, l⟩)

end Charts

instance : DecidableEq (Except PyErr ℚ) := fun a b =>
  match a, b with
  | .ok x, .ok y =>
    if h : x = y then .isTrue (by rw [h]) else .isFalse (fun hh => h (Except.ok.inj hh))
  | .error x, .error y =>
    if h : x = y then .isTrue (by rw [h]) else .isFalse (fun hh => h (Except.error.inj hh))
  | .ok _, .error _ => .isFalse (fun hh => Except.noConfusion hh)
  | .error _, .ok _ => .isFalse (fun hh => Except.noConfusion hh)

/-!  Unfolding lemmas for `Charts.normalize_parameter` on finite floats.  -/

theorem normalize_fin_ph (p : String) (v mn mx : ℚ)
    (hD : max |mx - 7| |mn - 7| ≠ 0) :
    Charts.normalize_parameter (.fin v) p (.fin mn) (.fin mx) "ph_difference"
      = .ok (min (|v - 7| / max |mx - 7| |mn - 7|) 1) := by
  simp [Charts.normalize_parameter, PyFloat.isna, PyFloat.toQ, hD]

theorem normalize_fin_std (p : String) (v mn mx : ℚ) (h : mx ≠ mn) :
    Charts.normalize_parameter (.fin v) p (.fin mn) (.fin mx) "standard"
      = .ok (max 0 (min 1 ((v - mn) / (mx - mn)))) := by
  simp [Charts.normalize_parameter, PyFloat.isna, PyFloat.toQ, h]

theorem normalize_fin_std_degenerate (p : String) (v mn : ℚ) :
    Charts.normalize_parameter (.fin v) p (.fin mn) (.fin mn) "standard"
      = .ok (if mn ≤ v then 0 else 1) := by
  simp [Charts.normalize_parameter, PyFloat.isna, PyFloat.toQ]

/-- C1 (as corrected).  Under the `ph_difference` policy with `min < 7 < max`
the result is `clamp(|value - 7| / max(|max - 7|, |min - 7|), 0, 1)` and is
`0` exactly when `value = 7`; with bounds `(6.5, 8.5)` the value `7.0`
normalizes to `0.0`, the value `8.5` to `1.0`, and the value `6.5` to `1/3`
(not `1.0`: the denominator is `max(1.5, 0.5) = 1.5`). -/
theorem ph_difference_normalization (v mn mx : ℚ) (hmn : mn < 7) (hmx : 7 < mx) :
    Charts.normalize_parameter (.fin v) "PH" (.fin mn) (.fin mx) "ph_difference"
      = .ok (max 0 (min 1 (|v - 7| / max |mx - 7| |mn - 7|))) ∧
    (Charts.normalize_parameter (.fin v) "PH" (.fin mn) (.fin mx) "ph_difference"
      = .ok 0 ↔ v = 7) ∧
    Charts.normalize_parameter (.fin 7) "PH" (.fin (13/2)) (.fin (17/2))
      "ph_difference" = .ok 0 ∧
    Charts.normalize_parameter (.fin (17/2)) "PH" (.fin (13/2)) (.fin (17/2))
      "ph_difference" = .ok 1 ∧
    Charts.normalize_parameter (.fin (13/2)) "PH" (.fin (13/2)) (.fin (17/2))
      "ph_difference" = .ok (1/3) := by
  have hDpos : (0:ℚ) < max |mx - 7| |mn - 7| :=
    lt_of_lt_of_le (abs_pos.mpr (sub_ne_zero.mpr (ne_of_gt hmx))) (le_max_left _ _)
  have hD : max |mx - 7| |mn - 7| ≠ 0 := ne_of_gt hDpos
  have hx : (0:ℚ) ≤ |v - 7| / max |mx - 7| |mn - 7| :=
    div_nonneg (abs_nonneg _) (le_of_lt hDpos)
  refine ⟨?_, ?_, ?_, ?_, ?_⟩
  · rw [normalize_fin_ph _ _ _ _ hD, min_comm,
      max_eq_right (le_min (by norm_num) hx)]
  · rw [normalize_fin_ph _ _ _ _ hD]
    constructor
    · intro h
      have h2 : min (|v - 7| / max |mx - 7| |mn - 7|) 1 = 0 := Except.ok.inj h
      rcases min_eq_iff.mp h2 with ⟨h3, _⟩ | ⟨h3, _⟩
      · rcases div_eq_zero_iff.mp h3 with h5 | h5
        · have h6 := abs_eq_zero.mp h5
          linarith
        · exact absurd h5 hD
      · norm_num at h3
    · intro h
      subst h
      rw [show (7:ℚ) - 7 = 0 by norm_num, abs_zero, zero_div]
      norm_num [min_def]
  · rw [normalize_fin_ph]
    · norm_num [abs, max_def, min_def]
    · norm_num [abs, max_def]
  · rw [normalize_fin_ph]
    · norm_num [abs, max_def, min_def]
    · norm_num [abs, max_def]
  · rw [normalize_fin_ph]
    · norm_num [abs, max_def, min_def]
    · norm_num [abs, max_def]

/-- Witness for C1 at `value = 8`, bounds `(6.5, 8.5)`. -/
theorem ph_difference_normalization_witness :
    ((13/2 : ℚ) < 7 ∧ (7 : ℚ) < 17/2) ∧
    (Charts.normalize_parameter (.fin 8) "PH" (.fin (13/2)) (.fin (17/2))
        "ph_difference"
        = .ok (max 0 (min 1 (|(8:ℚ) - 7| / max |(17:ℚ)/2 - 7| |(13:ℚ)/2 - 7|))) ∧
      (Charts.normalize_parameter (.fin 8) "PH" (.fin (13/2)) (.fin (17/2))
        "ph_difference" = .ok 0 ↔ (8:ℚ) = 7) ∧
      Charts.normalize_parameter (.fin 7) "PH" (.fin (13/2)) (.fin (17/2))
        "ph_difference" = .ok 0 ∧
      Charts.normalize_parameter (.fin (17/2)) "PH" (.fin (13/2)) (.fin (17/2))
        "ph_difference" = .ok 1 ∧
      Charts.normalize_parameter (.fin (13/2)) "PH" (.fin (13/2)) (.fin (17/2))
        "ph_difference" = .ok (1/3)) :=
  ⟨⟨by norm_num, by norm_num⟩,
    ph_difference_normalization 8 (13/2) (17/2) (by norm_num) (by norm_num)⟩

/-- C1 counterexample: the spec's scenario asserts that under bounds
`(6.5, 8.5)` the value `6.5` normalizes to `1.0`; the code yields `1/3`. -/
theorem ph_at_min_not_one :
    Charts.normalize_parameter (.fin (13/2)) "PH" (.fin (13/2)) (.fin (17/2))
        "ph_difference" = .ok (1/3) ∧ ((1:ℚ)/3) ≠ 1 := by
  constructor
  · rw [normalize_fin_ph]
    · norm_num [abs, max_def, min_def]
    · norm_num [abs, max_def]
  · norm_num

/-- C3 (code bug).  `charts.py` keys its policy dict on the literal string
`pH` and defaults every other key to `standard`, so the parameter named
`PH` — the repository's own canonical spelling (`RELEVANT_PARAMS` in
`data-loader.py`) — is normalized with the `standard` policy, not
`ph_difference`; the older builder (`charts - Copy2.py`, like `Copy.py`)
dispatches case-insensitively and does treat `PH` as pH.  At value `7.0`
with bounds `(6, 8)` this yields `0.5` instead of the ideal `0.0`. -/
theorem ph_policy_case_sensitive :
    Charts.param_policy ("pH") = "ph_difference" ∧
    Charts.param_policy ("PH") = "standard" ∧
    pyUpper ("PH") = "PH" ∧ pyUpper ("pH") = "PH" ∧
    Charts.normalize_parameter (.fin 7) "PH" (.fin 6) (.fin 8)
      (Charts.param_policy ("PH")) = .ok (1/2) ∧
    ChartsCopy2.normalize_parameter (.vnum 7) "PH" 6 8 = .fin 0 := by
  refine ⟨rfl, rfl, by decide, by decide, ?_, ?_⟩
  · rw [show Charts.param_policy ("PH") = "standard" from rfl, normalize_fin_std]
    · norm_num [max_def, min_def]
    · norm_num
  · simp [ChartsCopy2.normalize_parameter, ChartsCopy2.coerceValue, pyUpper,
      abs, max_def]

/-- C5 (code bug).  In `process_data` the leading-`<` branch precedes the
`LINT` branch, so `<5 LINT` is handled as a censored value: `strip('<')`
leaves `5 LINT`, whose float parse raises and is swallowed to `0.0` — the
`LINT` branch only ever sees strings without a leading `<`, for which it
does return the first token as a float. -/
theorem process_data_lint_shadowed :
    DataLoader.process_data (.vstr ("<5 LINT")) = .fin 0 ∧
    DataLoader.process_data (.vstr ("5 LINT")) = .fin 5 := by
  constructor
  · decide
  · decide

/-- C7 (code bug).  In the `standard` branch of `charts.py`'s
`normalize_parameter` with `max == min`, the code returns `0` when
`value >= max` and `1` otherwise — the opposite of the spec, and
discontinuous with the adjacent clamp, which sends any `value ≥ max` to
`1` whenever `min < max`. -/
theorem standard_equal_bounds_inverted :
    Charts.normalize_parameter (.fin 5) "TURBIDITY" (.fin 5) (.fin 5)
      "standard" = .ok 0 ∧
    Charts.normalize_parameter (.fin 5) "TURBIDITY" (.fin 4) (.fin 5)
      "standard" = .ok 1 := by
  constructor
  · rw [normalize_fin_std_degenerate]
    norm_num
  · rw [normalize_fin_std]
    · norm_num [max_def, min_def]
    · norm_num

/-- C9.  Whenever the value or either bound is NaN, `normalize_parameter`
returns `0` under every policy (the `pd.isna` guard fires before any
arithmetic). -/
theorem normalize_nan_returns_zero (value pmin pmax : PyFloat)
    (name ptype : String)
    (h : value.isna = true ∨ pmin.isna = true ∨ pmax.isna = true) :
    Charts.normalize_parameter value name pmin pmax ptype = .ok 0 := by
  rcases h with h | h | h <;> simp [Charts.normalize_parameter, h]

/-- Witness for C9 at a NaN value. -/
theorem normalize_nan_returns_zero_witness :
    (PyFloat.nan.isna = true ∨ (PyFloat.fin 0).isna = true ∨
      (PyFloat.fin 1).isna = true) ∧
    Charts.normalize_parameter .nan ("PH") (.fin 0) (.fin 1) "standard"
      = .ok 0 :=
  ⟨Or.inl rfl,
    normalize_nan_returns_zero .nan (.fin 0) (.fin 1) "PH" "standard"
      (Or.inl rfl)⟩

/-- C2.  A period with no missing / not-reported / blank cell yields
`warning = None`; injecting a single `N/R` cell yields a warning whose
parameter listing is exactly that parameter's name appended to the fixed
header — the name of no other parameter appears in the listing. -/
theorem radar_warning_roundtrip (week : ℕ) (pre post : List (String × PyVal))
    (p : String)
    (hclean : ∀ r ∈ pre ++ post, ChartsCopy.isMissing r.2 = false) :
    ChartsCopy.warning_message week (pre ++ post) = none ∧
    ChartsCopy.missing_params (pre ++ (p, PyVal.vstr ("N/R")) :: post) = [p] ∧
    ChartsCopy.warning_message week (pre ++ (p, PyVal.vstr ("N/R")) :: post)
      = some (("Warning: Missing values for Week (" ++ toString week ++
          ") in parameters: ") ++ p) := by
  have hpre : ∀ r ∈ pre, ChartsCopy.isMissing r.2 = false :=
    fun r hr => hclean r (List.mem_append_left _ hr)
  have hpost : ∀ r ∈ post, ChartsCopy.isMissing r.2 = false :=
    fun r hr => hclean r (List.mem_append_right _ hr)
  have hfpre : pre.filter (fun r => ChartsCopy.isMissing r.2) = [] :=
    List.filter_eq_nil_iff.mpr (fun a ha => by simp [hpre a ha])
  have hfpost : post.filter (fun r => ChartsCopy.isMissing r.2) = [] :=
    List.filter_eq_nil_iff.mpr (fun a ha => by simp [hpost a ha])
  have hnr : ChartsCopy.isMissing (PyVal.vstr ("N/R")) = true := by decide
  have h2 : ChartsCopy.missing_params (pre ++ (p, PyVal.vstr ("N/R")) :: post)
      = [p] := by
    unfold ChartsCopy.missing_params
    rw [List.filter_append, hfpre, List.filter_cons_of_pos (by simpa using hnr),
      hfpost]
    rfl
  refine ⟨?_, h2, ?_⟩
  · unfold ChartsCopy.warning_message ChartsCopy.missing_params
    rw [List.filter_append, hfpre, hfpost]
    rfl
  · unfold ChartsCopy.warning_message
    rw [h2]
    rfl

/-- Witness for C2: week 3, a clean `PH` row, and a `TURBIDITY` row whose
cell is `N/R`. -/
theorem radar_warning_roundtrip_witness :
    (∀ r ∈ ([("PH", PyVal.vstr ("7.2"))] ++ ([] : List (String × PyVal))),
      ChartsCopy.isMissing r.2 = false) ∧
    ChartsCopy.warning_message 3
      ([("PH", PyVal.vstr ("7.2"))] ++ ([] : List (String × PyVal))) = none ∧
    ChartsCopy.missing_params
      ([("PH", PyVal.vstr ("7.2"))] ++ ("TURBIDITY", PyVal.vstr ("N/R")) :: [])
      = ["TURBIDITY"] ∧
    ChartsCopy.warning_message 3
      ([("PH", PyVal.vstr ("7.2"))] ++ ("TURBIDITY", PyVal.vstr ("N/R")) :: [])
      = some (("Warning: Missing values for Week (" ++ toString 3 ++
          ") in parameters: ") ++ "TURBIDITY") :=
  ⟨by decide,
    radar_warning_roundtrip 3 [("PH", PyVal.vstr ("7.2"))] [] "TURBIDITY"
      (by decide)⟩

/-- C4 (as corrected).  `charts - Copy2.py`'s normalizer returns `0.0` on
every zero denominator (both the pH branch and the standard branch guard
the division), and `charts.py`'s `standard` branch returns without
division when `max == min`; but `charts.py`'s `ph_difference` and
`centered` branches divide unguarded, and their `except` clause catches
only `TypeError`/`ValueError`, so a zero denominator there escapes as an
uncaught `ZeroDivisionError` rather than returning `0.0`. -/
theorem zero_denominator_behavior :
    (∀ (v : ℚ) (name : String),
      Charts.normalize_parameter (.fin v) name (.fin 7) (.fin 7)
        "ph_difference" = .error .zeroDivision) ∧
    (∀ (v mn : ℚ) (name : String),
      Charts.normalize_parameter (.fin v) name (.fin mn) (.fin mn)
        "centered" = .error .zeroDivision) ∧
    (∀ (v mn : ℚ) (name : String),
      Charts.normalize_parameter (.fin v) name (.fin mn) (.fin mn)
        "standard" = .ok (if mn ≤ v then 0 else 1)) ∧
    (∀ (value : PyVal) (param : String) (mn mx : ℚ),
      pyUpper param = "PH" → max |mx - 7| |mn - 7| = 0 →
      ChartsCopy2.normalize_parameter value param mn mx = .fin 0) ∧
    (∀ (value : PyVal) (param : String) (mn : ℚ),
      pyUpper param ≠ "PH" →
      ChartsCopy2.normalize_parameter value param mn mn = .fin 0) := by
  refine ⟨?_, ?_, ?_, ?_, ?_⟩
  · intro v name
    simp [Charts.normalize_parameter, PyFloat.isna, PyFloat.toQ]
  · intro v mn name
    simp [Charts.normalize_parameter, PyFloat.isna, PyFloat.toQ,
      add_self_div_two]
  · intro v mn name
    exact normalize_fin_std_degenerate name v mn
  · intro value param mn mx hp hd
    rcases h : ChartsCopy2.coerceValue value with _ | f <;>
      simp [ChartsCopy2.normalize_parameter, h, hp, hd]
  · intro value param mn hp
    rcases h : ChartsCopy2.coerceValue value with _ | f <;>
      simp [ChartsCopy2.normalize_parameter, h, hp]

/-- Witness for C4 on the hypothesis-bearing Copy2 conjuncts, at
`min = max = 7` for pH and `min = max = 9` for a standard parameter. -/
theorem zero_denominator_behavior_witness :
    (pyUpper ("PH") = "PH" ∧ max |(7:ℚ) - 7| |(7:ℚ) - 7| = 0 ∧
      pyUpper ("TURBIDITY") ≠ "PH") ∧
    ChartsCopy2.normalize_parameter (.vnum 8) "PH" 7 7 = .fin 0 ∧
    ChartsCopy2.normalize_parameter (.vnum 8) "TURBIDITY" 9 9 = .fin 0 :=
  ⟨⟨by decide, by simp, by decide⟩,
    zero_denominator_behavior.2.2.2.1 (.vnum 8) "PH" 7 7 (by decide) (by simp),
    zero_denominator_behavior.2.2.2.2 (.vnum 8) "TURBIDITY" 9 (by decide)⟩

/-- C4 counterexample: at `value = 8`, `min = max = 7`, policy
`ph_difference`, the current normalizer raises (uncaught
`ZeroDivisionError`) instead of returning `0.0`. -/
theorem ph_zero_denominator_raises :
    Charts.normalize_parameter (.fin 8) "PH" (.fin 7) (.fin 7)
      "ph_difference" = .error .zeroDivision ∧
    Charts.normalize_parameter (.fin 8) "PH" (.fin 7) (.fin 7)
      "ph_difference" ≠ .ok 0 := by
  constructor
  · simp [Charts.normalize_parameter, PyFloat.isna, PyFloat.toQ]
  · simp [Charts.normalize_parameter, PyFloat.isna, PyFloat.toQ]

/-- C8.  Under the `standard` policy with `min < max`, the normalized
value is the clamp of `(value - min) / (max - min)` to `[0, 1]`, lies in
`[0, 1]`, and is monotonically non-decreasing in the value on
`[min, max]`. -/
theorem standard_monotone_bounded (name : String) (mn mx v w : ℚ)
    (hlt : mn < mx) (hv1 : mn ≤ v) (hv2 : v ≤ mx) (hw2 : w ≤ mx)
    (hvw : v ≤ w) :
    ∃ a b : ℚ,
      Charts.normalize_parameter (.fin v) name (.fin mn) (.fin mx)
        "standard" = .ok a ∧
      Charts.normalize_parameter (.fin w) name (.fin mn) (.fin mx)
        "standard" = .ok b ∧
      a = max 0 (min 1 ((v - mn) / (mx - mn))) ∧
      0 ≤ a ∧ a ≤ 1 ∧ a ≤ b := by
  have hne : mx ≠ mn := ne_of_gt hlt
  have hd : (0:ℚ) < mx - mn := by linarith
  refine ⟨_, _, normalize_fin_std name v mn mx hne,
    normalize_fin_std name w mn mx hne, rfl, ?_, ?_, ?_⟩
  · exact le_max_left 0 _
  · exact max_le (by norm_num) (min_le_left 1 _)
  · exact max_le_max le_rfl
      (min_le_min le_rfl ((div_le_div_iff_of_pos_right hd).mpr (by linarith)))

/-- Witness for C8 at `min = 0`, `max = 4`, values `1 ≤ 2`. -/
theorem standard_monotone_bounded_witness :
    ((0:ℚ) < 4 ∧ (0:ℚ) ≤ 1 ∧ (1:ℚ) ≤ 4 ∧ (2:ℚ) ≤ 4 ∧ (1:ℚ) ≤ 2) ∧
    ∃ a b : ℚ,
      Charts.normalize_parameter (.fin 1) "TURBIDITY" (.fin 0) (.fin 4)
        "standard" = .ok a ∧
      Charts.normalize_parameter (.fin 2) "TURBIDITY" (.fin 0) (.fin 4)
        "standard" = .ok b ∧
      a = max 0 (min 1 (((1:ℚ) - 0) / (4 - 0))) ∧
      0 ≤ a ∧ a ≤ 1 ∧ a ≤ b :=
  ⟨⟨by norm_num, by norm_num, by norm_num, by norm_num, by norm_num⟩,
    standard_monotone_bounded ("TURBIDITY") 0 4 1 2 (by norm_num) (by norm_num)
      (by norm_num) (by norm_num) (by norm_num)⟩

/-!  Folding `max` over a list agrees with `List.maximum`.  -/

theorem foldl_max_comm (vs : List ℚ) :
    ∀ v w : ℚ, vs.foldl max (max v w) = max v (vs.foldl max w) := by
  induction vs with
  | nil => intro v w; rfl
  | cons x xs ih =>
    intro v w
    show xs.foldl max (max (max v w) x) = max v (xs.foldl max (max w x))
    rw [max_assoc, ih]

theorem maximum_eq_foldl (vs : List ℚ) :
    ∀ v : ℚ, (v :: vs).maximum = some (vs.foldl max v) := by
  induction vs with
  | nil => intro v; exact List.maximum_singleton v
  | cons w ws ih =>
    intro v
    rw [List.maximum_cons, ih w]
    show ((v : WithBot ℚ)) ⊔ ((ws.foldl max w : ℚ) : WithBot ℚ)
      = ((ws.foldl max (max v w) : ℚ) : WithBot ℚ)
    rw [← WithBot.coe_sup, foldl_max_comm]

/-- C6 (as corrected).  For a parameter with no bounds row,
`get_dynamic_range` resolves `(0, 1.1 * m)` where `m` is the maximum
positive parsed value of that parameter across the periods, and `(0, 1)`
when no positive parseable value exists; observed values `[2, 4, 6]`
therefore resolve to `(0, 6.6)`, not `(0, 6)`. -/
theorem get_dynamic_range_spec :
    (∀ (cells : List PyVal) (q : ℚ),
      (cells.filterMap ChartsCopy2.dynValue).maximum = some q →
      ChartsCopy2.get_dynamic_range cells = (0, q * (11/10))) ∧
    (∀ cells : List PyVal,
      (cells.filterMap ChartsCopy2.dynValue).maximum = none →
      ChartsCopy2.get_dynamic_range cells = (0, 1)) ∧
    ChartsCopy2.get_dynamic_range [.vnum 2, .vnum 4, .vnum 6] = (0, 33/5) := by
  refine ⟨?_, ?_, ?_⟩
  · intro cells q h
    unfold ChartsCopy2.get_dynamic_range
    rcases hf : cells.filterMap ChartsCopy2.dynValue with _ | ⟨v, vs⟩
    · rw [hf, List.maximum_nil] at h
      cases h
    · rw [hf, maximum_eq_foldl] at h
      have hq := Option.some.inj h
      simp [ChartsCopy2.pyListMax, hq]
  · intro cells h
    rw [List.maximum_eq_none] at h
    unfold ChartsCopy2.get_dynamic_range
    rw [h]
  · simp [ChartsCopy2.get_dynamic_range, ChartsCopy2.dynValue,
      ChartsCopy2.pyListMax, max_def]
    norm_num

/-- Witness for C6 at observed values `[2, 4, 6]` with maximum `6`. -/
theorem get_dynamic_range_spec_witness :
    (([PyVal.vnum 2, .vnum 4, .vnum 6].filterMap
        ChartsCopy2.dynValue).maximum = some 6) ∧
    ChartsCopy2.get_dynamic_range [.vnum 2, .vnum 4, .vnum 6]
      = (0, 6 * (11/10)) := by
  have hfm : [PyVal.vnum 2, .vnum 4, .vnum 6].filterMap ChartsCopy2.dynValue
      = [2, 4, 6] := by
    simp [ChartsCopy2.dynValue, List.filterMap_cons]
  have hmax : ([PyVal.vnum 2, .vnum 4, .vnum 6].filterMap
      ChartsCopy2.dynValue).maximum = some 6 := by
    rw [hfm, maximum_eq_foldl]
    norm_num [max_def]
  exact ⟨hmax, get_dynamic_range_spec.1 [.vnum 2, .vnum 4, .vnum 6] 6 hmax⟩

/-- C6 counterexample: the spec's scenario asserts resolved bounds
`(0, 6)` for observed values `[2, 4, 6]`; the code resolves `(0, 6.6)`
(the 10% headroom factor at line 62 of `charts - Copy2.py`). -/
theorem dynamic_range_not_observed_max :
    ChartsCopy2.get_dynamic_range [.vnum 2, .vnum 4, .vnum 6] = (0, 33/5) ∧
    ((0:ℚ), (33:ℚ)/5) ≠ ((0:ℚ), (6:ℚ)) := by
  constructor
  · simp [ChartsCopy2.get_dynamic_range, ChartsCopy2.dynValue,
      ChartsCopy2.pyListMax, max_def]
    norm_num
  · norm_num [Prod.ext_iff]

/-!  Unfolding equations and length lemmas for the two series loops.  -/

theorem primary_r_cons (p : String) (v : PyVal) (rest : List (String × PyVal))
    (ranges : List (String × ℚ × ℚ)) (fb : String → ℚ × ℚ) :
    Charts.primary_r ((p, v) :: rest) ranges fb =
      match Charts.pointOf p v ((Charts.lookupRange ranges p).getD (fb p)).1
          ((Charts.lookupRange ranges p).getD (fb p)).2 with
      | .error e => .error e
      | .ok q =>
        match Charts.primary_r rest ranges fb with
        | .error e => .error e
        | .ok qs => .ok (q :: qs) := rfl

theorem comparison_r_cons (p : String) (v : PyVal)
    (rest : List (String × PyVal)) (tranges : List (String × ℚ × ℚ)) :
    Charts.comparison_r ((p, v) :: rest) tranges =
      match Charts.lookupRange tranges p with
      | none => Charts.comparison_r rest tranges
      | some b =>
        match Charts.pointOf p v b.1 b.2 with
        | .error e => .error e
        | .ok q =>
          match Charts.comparison_r rest tranges with
          | .error e => .error e
          | .ok qs => .ok (q :: qs) := rfl

theorem primary_r_ok_length (ranges : List (String × ℚ × ℚ))
    (fb : String → ℚ × ℚ) :
    ∀ (rows : List (String × PyVal)) (l : List ℚ),
      Charts.primary_r rows ranges fb = .ok l → l.length = rows.length := by
  intro rows
  induction rows with
  | nil =>
    intro l h
    have h2 : ([] : List ℚ) = l := Except.ok.inj h
    rw [← h2]
    rfl
  | cons hd tl ih =>
    obtain ⟨p, v⟩ := hd
    intro l h
    rw [primary_r_cons] at h
    cases hE : Charts.pointOf p v ((Charts.lookupRange ranges p).getD (fb p)).1
        ((Charts.lookupRange ranges p).getD (fb p)).2 with
    | error e => rw [hE] at h; exact Except.noConfusion h
    | ok q =>
      rw [hE] at h
      cases hR : Charts.primary_r tl ranges fb with
      | error e => rw [hR] at h; exact Except.noConfusion h
      | ok qs =>
        rw [hR] at h
        have h2 : q :: qs = l := Except.ok.inj h
        rw [← h2]
        simp [ih qs hR]

theorem comparison_r_ok_length (tranges : List (String × ℚ × ℚ)) :
    ∀ (rows : List (String × PyVal)) (l : List ℚ),
      Charts.comparison_r rows tranges = .ok l →
      l.length = (rows.filter
        (fun r => (Charts.lookupRange tranges r.1).isSome)).length := by
  intro rows
  induction rows with
  | nil =>
    intro l h
    have h2 : ([] : List ℚ) = l := Except.ok.inj h
    rw [← h2]
    rfl
  | cons hd tl ih =>
    obtain ⟨p, v⟩ := hd
    intro l h
    rw [comparison_r_cons] at h
    cases hL : Charts.lookupRange tranges p with
    | none =>
      simp only [hL] at h
      rw [List.filter_cons_of_neg (by simp [hL])]
      exact ih l h
    | some b =>
      simp only [hL] at h
      cases hE : Charts.pointOf p v b.1 b.2 with
      | error e => rw [hE] at h; exact Except.noConfusion h
      | ok q =>
        rw [hE] at h
        cases hR : Charts.comparison_r tl tranges with
        | error e => rw [hR] at h; exact Except.noConfusion h
        | ok qs =>
          rw [hR] at h
          have h2 : q :: qs = l := Except.ok.inj h
          rw [← h2, List.filter_cons_of_pos (by simp [hL])]
          simp [ih qs hR]

/-- C10.  When a comparison series is requested, a selected parameter
with no row in the comparison bounds table is silently dropped from the
comparison series while the primary series keeps it, so the comparison
trace can have strictly fewer radial points than the primary trace even
though both traces carry the same angular labels. -/
theorem comparison_series_omission :
    (∀ (rows : List (String × PyVal)) (ranges tranges : List (String × ℚ × ℚ))
        (fb : String → ℚ × ℚ) (t1 t2 : Charts.Trace),
      Charts.primary_trace rows ranges fb = .ok t1 →
      Charts.comparison_trace rows tranges = .ok t2 →
      t1.theta = t2.theta ∧ t1.r.length = rows.length ∧
        t2.r.length = (rows.filter
          (fun r => (Charts.lookupRange tranges r.1).isSome)).length) ∧
    (∃ t1 t2 : Charts.Trace,
      Charts.primary_trace [("A", PyVal.vstr ("x")), ("B", PyVal.vstr ("y"))]
          [("A", 0, 4), ("B", 0, 4)] (fun _ => (0, 1)) = .ok t1 ∧
      Charts.comparison_trace [("A", PyVal.vstr ("x")), ("B", PyVal.vstr ("y"))]
          [("A", 0, 4)] = .ok t2 ∧
      t2.theta = t1.theta ∧ t2.r.length < t1.r.length) := by
  constructor
  · intro rows ranges tranges fb t1 t2 h1 h2
    unfold Charts.primary_trace at h1
    unfold Charts.comparison_trace at h2
    cases hp : Charts.primary_r rows ranges fb with
    | error e => rw [hp] at h1; exact Except.noConfusion h1
    | ok l1 =>
      rw [hp] at h1
      cases hc : Charts.comparison_r rows tranges with
      | error e => rw [hc] at h2; exact Except.noConfusion h2
      | ok l2 =>
        rw [hc] at h2
        have e1 := Except.ok.inj h1
        have e2 := Except.ok.inj h2
        rw [← e1, ← e2]
        exact ⟨rfl, primary_r_ok_length ranges fb rows l1 hp,
          comparison_r_ok_length tranges rows l2 hc⟩
  · exact ⟨⟨["A", "B"], [0, 0]⟩, ⟨["A", "B"], [0]⟩, rfl, rfl, rfl,
      by norm_num⟩

/-- Witness for C10 at a two-parameter selection whose comparison bounds
table only covers the first parameter. -/
theorem comparison_series_omission_witness :
    Charts.primary_trace [("A", PyVal.vstr ("x")), ("B", PyVal.vstr ("y"))]
        [("A", 0, 4), ("B", 0, 4)] (fun _ => (0, 1))
      = .ok ⟨["A", "B"], [0, 0]⟩ ∧
    Charts.comparison_trace [("A", PyVal.vstr ("x")), ("B", PyVal.vstr ("y"))]
        [("A", 0, 4)] = .ok ⟨["A", "B"], [0]⟩ ∧
    (Charts.Trace.mk ["A", "B"] [0, 0]).theta
        = (Charts.Trace.mk ["A", "B"] [0]).theta ∧
    (Charts.Trace.mk ["A", "B"] [0, 0]).r.length = 2 ∧
    (Charts.Trace.mk ["A", "B"] [0]).r.length
      = ([("A", PyVal.vstr ("x")), ("B", PyVal.vstr ("y"))].filter
          (fun r => (Charts.lookupRange [("A", 0, 4)] r.1).isSome)).length :=
  ⟨rfl, rfl,
    (comparison_series_omission.1 [("A", PyVal.vstr ("x")), ("B", PyVal.vstr ("y"))]
      [("A", 0, 4), ("B", 0, 4)] [("A", 0, 4)] (fun _ => (0, 1))
      ⟨["A", "B"], [0, 0]⟩ ⟨["A", "B"], [0]⟩ rfl rfl).1,
    (comparison_series_omission.1 [("A", PyVal.vstr ("x")), ("B", PyVal.vstr ("y"))]
      [("A", 0, 4), ("B", 0, 4)] [("A", 0, 4)] (fun _ => (0, 1))
      ⟨["A", "B"], [0, 0]⟩ ⟨["A", "B"], [0]⟩ rfl rfl).2.1,
    (comparison_series_omission.1 [("A", PyVal.vstr ("x")), ("B", PyVal.vstr ("y"))]
      [("A", 0, 4), ("B", 0, 4)] [("A", 0, 4)] (fun _ => (0, 1))
      ⟨["A", "B"], [0, 0]⟩ ⟨["A", "B"], [0]⟩ rfl rfl).2.2⟩

end WSA
